import Mathlib

/-!
Verification of the gift-lifecycle core of the Gift App backend
(src/backend/backend.py).

The backend is a thin HTTP facade over a row store.  We shallowly embed the
gift table as a `List Gift` and each endpoint as a pure function from the
table (plus the request parameters) to a result and the new table.  Each
database query the Python code issues (a filtered select, an update keyed by
equality conditions, an insert) is modelled as one atomic step on the list;
the claim endpoint is additionally decomposed into its two database calls
(the availability select and the update) so that interleavings of concurrent
claims can be examined at the same granularity at which the real database
serializes the individual queries.

Identifiers (user ids, gift ids) are modelled as strings; the HTTP layer's
UUID-format validation (which only rejects malformed ids with a 400) is
outside the embedded core, so the functions here correspond to the handlers
after that syntactic validation.  Timestamps are abstracted as naturals.
Placement coordinates are rationals (the source only ever uses the literals
0, 0.5 and 1).
-/

/-- Gift lifecycle states, the `status` column: `in_pool`, `claimed`, `opened`. -/
inductive GiftStatus
  | in_pool
  | claimed
  | opened
deriving DecidableEq, Repr

/-- One entry of the free-form `objects` JSON list.  The Python code treats
entries as dictionaries read with `.get`, so every field is optional. -/
structure PlacedObj where
  url : Option String
  format : Option String
  position : Option (ℚ × ℚ × ℚ)
  rotation : Option (ℚ × ℚ × ℚ)
  scale : Option (ℚ × ℚ × ℚ)
deriving DecidableEq, Repr

/-- A row of the `gifts` table. -/
structure Gift where
  id : String
  creator_id : String
  recipient_id : Option String
  name : String
  prompt : Option String
  model_url : Option String
  objects : List PlacedObj
  wrapped : Bool
  status : GiftStatus
  created_at : Nat
  claimed_at : Option Nat
deriving DecidableEq, Repr

/-- The body of `POST /api/gifts/wrap` (`WrapGiftRequest`), after pydantic
validation.  `model_data` is an upload detail not touching the record shape. -/
structure WrapRequest where
  user_id : String
  name : String
  prompt : Option String
  model_url : Option String
  objects : List PlacedObj
deriving DecidableEq, Repr

/-- Python truthiness of an optional string: `None` and `""` are falsy. -/
def strTruthy : Option String → Bool
  | none => false
  | some s => decide (s ≠ "")

/-- `model_url = request.model_url; if not model_url and request.objects:
model_url = request.objects[0].get("url")` in `wrap_gift`. -/
def wrapModelUrl (mu : Option String) (objs : List PlacedObj) : Option String :=
  if strTruthy mu then mu
  else
    match objs with
    | [] => mu
    | o :: _ => o.url

/-- The dictionary `wrap_gift` inserts at index 0 for the primary model:
`{url, position [0, 0.5, 0], rotation [0, 0, 0], scale [1, 1, 1]}` (no
`format` key). -/
def defaultPrimary (u : String) : PlacedObj :=
  { url := some u, format := none,
    position := some (0, 1/2, 0),
    rotation := some (0, 0, 0),
    scale := some (1, 1, 1) }

/-- `obj.get("url") == model_url` for a truthy `model_url` value `u`. -/
def hasUrl (u : String) (o : PlacedObj) : Bool := decide (o.url = some u)

/-- `objects = request.objects.copy(); if model_url and not any(obj.get("url")
== model_url for obj in objects): objects.insert(0, ...)` in `wrap_gift`. -/
def wrapObjects (mu : Option String) (objs : List PlacedObj) : List PlacedObj :=
  match mu with
  | none => objs
  | some u =>
    if u = "" then objs
    else if objs.any (hasUrl u) then objs
    else defaultPrimary u :: objs

/-- `wrap_gift`: build the row inserted into the `gifts` table and append it.
Returns the new table and the inserted row (`result.data[0]`, from which the
response view is built unchanged). -/
def wrap_gift (db : List Gift) (gid : String) (req : WrapRequest) (now : Nat) :
    List Gift × Gift :=
  let mu := wrapModelUrl req.model_url req.objects
  let g : Gift :=
    { id := gid, creator_id := req.user_id, recipient_id := none,
      name := req.name, prompt := req.prompt, model_url := mu,
      objects := wrapObjects mu req.objects, wrapped := true,
      status := GiftStatus.in_pool, created_at := now, claimed_at := none }
  (db ++ [g], g)

/-- Pydantic constraint on the `model_url` field of `WrapGiftRequest`:
`Optional[str]` with `max_length=2000`; absence is allowed. -/
def modelUrlFieldOk : Option String → Bool
  | none => true
  | some u => decide (u.length ≤ 2000)

/-- Pydantic constraint on the `objects` field of `WrapGiftRequest`:
a list with `max_length=50`, defaulting to empty; emptiness is allowed. -/
def objectsFieldOk (objs : List PlacedObj) : Bool := decide (objs.length ≤ 50)

/-- Errors raised by `claim_gift`: HTTP 409 ("Gift is no longer available"),
HTTP 400 ("Cannot claim your own gift"), HTTP 500 ("Failed to claim gift"). -/
inductive ClaimError
  | Conflict
  | InvalidOperation
  | UpdateFailed
deriving DecidableEq, Repr

/-- Row predicate of the availability select in `claim_gift`:
`.eq("id", gift_id).eq("status", "in_pool").is_("recipient_id", "null")`. -/
def availableFor (gid : String) (g : Gift) : Bool :=
  decide (g.id = gid ∧ g.status = GiftStatus.in_pool ∧ g.recipient_id = none)

/-- Result rows of the availability select in `claim_gift`. -/
def claimCheck (db : List Gift) (gid : String) : List Gift :=
  db.filter (availableFor gid)

/-- First database call of `claim_gift` plus the in-process guards that run
on its result: empty result raises 409 Conflict; a gift whose creator is the
caller raises 400; otherwise the gift read (`check_result.data[0]`) is
passed on to the update. -/
def claimCheckPhase (db : List Gift) (gid uid : String) : Except ClaimError Gift :=
  match claimCheck db gid with
  | [] => Except.error ClaimError.Conflict
  | g :: _ =>
    if g.creator_id = uid then Except.error ClaimError.InvalidOperation
    else Except.ok g

/-- The column assignments of the claim update:
`{recipient_id, status: "claimed", claimed_at: now}`. -/
def claimUpdate (uid : String) (now : Nat) (g : Gift) : Gift :=
  { g with recipient_id := some uid, status := GiftStatus.claimed,
           claimed_at := some now }

/-- Per-row effect of the claim update, which is keyed only on
`.eq("id", gift_id)` — there is no condition on `status` here. -/
def claimStep (gid uid : String) (now : Nat) (g : Gift) : Gift :=
  if g.id = gid then claimUpdate uid now g else g

/-- The claim update applied to the whole table. -/
def applyClaimUpdate (db : List Gift) (gid uid : String) (now : Nat) : List Gift :=
  db.map (claimStep gid uid now)

/-- Row predicate of the claim update, `.eq("id", gift_id)`: the rows the
update matched (and returned as `update_result.data`). -/
def idMatches (gid : String) (g : Gift) : Bool := decide (g.id = gid)

/-- Second database call of `claim_gift`: execute the update, raise 500 when
it matched no row, otherwise answer with `update_result.data[0]` whose
`wrapped` is forced to `false` in the response view only. -/
def claimUpdatePhase (db : List Gift) (gid uid : String) (now : Nat) :
    Except ClaimError Gift × List Gift :=
  match (applyClaimUpdate db gid uid now).filter (idMatches gid) with
  | [] => (Except.error ClaimError.UpdateFailed, applyClaimUpdate db gid uid now)
  | g :: _ => (Except.ok { g with wrapped := false }, applyClaimUpdate db gid uid now)

/-- `claim_gift`, sequentially: the availability select followed by the
update.  An error in the first phase leaves the table untouched.  (The
append-only `gift_openings` audit insert touches a different table and is
not part of the gift-record state.) -/
def claim_gift (db : List Gift) (gid uid : String) (now : Nat) :
    Except ClaimError Gift × List Gift :=
  match claimCheckPhase db gid uid with
  | Except.error e => (Except.error e, db)
  | Except.ok _ => claimUpdatePhase db gid uid now

/-- Two concurrent executions of `claim_gift` on the same gift by users `u1`
and `u2`, interleaved so that both availability selects run before either
update — each database call remains atomic, exactly as the database
serializes individual queries.  Returns (result seen by u1, result seen by
u2, final table). -/
def claimRaceBothChecksFirst (db : List Gift) (gid u1 u2 : String) (t1 t2 : Nat) :
    Except ClaimError Gift × Except ClaimError Gift × List Gift :=
  match claimCheckPhase db gid u1, claimCheckPhase db gid u2 with
  | Except.error e1, Except.error e2 => (Except.error e1, Except.error e2, db)
  | Except.error e1, Except.ok _ =>
    let r2 := claimUpdatePhase db gid u2 t2
    (Except.error e1, r2.1, r2.2)
  | Except.ok _, Except.error e2 =>
    let r1 := claimUpdatePhase db gid u1 t1
    (r1.1, Except.error e2, r1.2)
  | Except.ok _, Except.ok _ =>
    let r1 := claimUpdatePhase db gid u1 t1
    let r2 := claimUpdatePhase r1.2 gid u2 t2
    (r1.1, r2.1, r2.2)

/-- Error raised by `open_gift`: HTTP 404 ("Gift not found or not yours to
open"). -/
inductive OpenError
  | NotFound
deriving DecidableEq, Repr

/-- Row predicate of the open update:
`.eq("id", gift_id).eq("recipient_id", user_id)`. -/
def openCond (gid uid : String) (g : Gift) : Bool :=
  decide (g.id = gid ∧ g.recipient_id = some uid)

/-- Column assignments of the open update: `{wrapped: False, status: "opened"}`. -/
def openUpdate (g : Gift) : Gift :=
  { g with wrapped := false, status := GiftStatus.opened }

/-- Per-row effect of the open update. -/
def openStep (gid uid : String) (g : Gift) : Gift :=
  if openCond gid uid g then openUpdate g else g

/-- `open_gift`: a single conditional update; 404 when it matched no row,
otherwise the first updated row (`result.data[0]`) is returned. -/
def open_gift (db : List Gift) (gid uid : String) :
    Except OpenError Gift × List Gift :=
  match (db.map (openStep gid uid)).filter (openCond gid uid) with
  | [] => (Except.error OpenError.NotFound, db.map (openStep gid uid))
  | g :: _ => (Except.ok g, db.map (openStep gid uid))

/-- Row predicate of the pool select in `get_gift_from_pool`:
`.eq("status", "in_pool").neq("creator_id", user_id).is_("recipient_id", "null")`. -/
def poolPred (uid : String) (g : Gift) : Bool :=
  decide (g.status = GiftStatus.in_pool ∧ g.creator_id ≠ uid ∧ g.recipient_id = none)

/-- The candidate rows of the pool select. -/
def poolCandidates (db : List Gift) (uid : String) : List Gift :=
  db.filter (poolPred uid)

/-- `get_gift_from_pool` (`GET /api/gifts/pool`): returns `None` when the
candidate set is empty, otherwise `random.choice` over the candidates —
modelled by an arbitrary draw index reduced modulo the candidate count.
Read-only: the table is not touched. -/
def get_gift_from_pool (db : List Gift) (uid : String) (choice : Nat) : Option Gift :=
  (poolCandidates db uid).get? (choice % (poolCandidates db uid).length)

/-- The spec invariant: `recipient_id` is null iff `status == in_pool`. -/
def giftInv (db : List Gift) : Prop :=
  ∀ g ∈ db, (g.recipient_id = none ↔ g.status = GiftStatus.in_pool)

/-- A fresh in-pool gift created by user A, used as concrete test data. -/
def poolGift : Gift :=
  { id := "g1", creator_id := "A", recipient_id := none, name := "Box",
    prompt := none, model_url := some "https://x/a.glb", objects := [],
    wrapped := true, status := GiftStatus.in_pool, created_at := 0,
    claimed_at := none }

/-- `poolGift` after being claimed by user B at time 1. -/
def claimedGift : Gift :=
  { poolGift with recipient_id := some "B", status := GiftStatus.claimed,
                  claimed_at := some 1 }

/-- The response view of claiming `poolGift` as user B at time 5. -/
def claimedViewB : Gift :=
  { poolGift with recipient_id := some "B", status := GiftStatus.claimed,
                  claimed_at := some 5, wrapped := false }

/-- An object entry whose url is "B". -/
def objUrlB : PlacedObj :=
  { url := some "B", format := none, position := none, rotation := none,
    scale := none }

/-- An object entry whose url is "A". -/
def objUrlA : PlacedObj :=
  { url := some "A", format := none, position := none, rotation := none,
    scale := none }

/-- A wrap request whose `model_url` "A" already occurs in `objects`, but
not as the first entry. -/
def reqDup : WrapRequest :=
  { user_id := "U", name := "N", prompt := none, model_url := some "A",
    objects := [objUrlB, objUrlA] }

/-- A wrap request with `model_url` "A" and no explicit objects. -/
def reqW : WrapRequest :=
  { user_id := "U", name := "N", prompt := none, model_url := some "A",
    objects := [] }

/-! ## Helper lemmas -/

/-- The claim availability check, read back as a proposition. -/
theorem availableFor_eq_true (gid : String) (g : Gift) :
    availableFor gid g = true ↔
      (g.id = gid ∧ g.status = GiftStatus.in_pool ∧ g.recipient_id = none) := by
  simp [availableFor]

/-- The pool predicate, read back as a proposition. -/
theorem poolPred_eq_true (uid : String) (g : Gift) :
    poolPred uid g = true ↔
      (g.status = GiftStatus.in_pool ∧ g.creator_id ≠ uid ∧ g.recipient_id = none) := by
  simp [poolPred]

/-- The open-update match condition, read back as a proposition. -/
theorem openCond_eq_true (gid uid : String) (g : Gift) :
    openCond gid uid g = true ↔ (g.id = gid ∧ g.recipient_id = some uid) := by
  simp [openCond]

/-- When the availability select returns no row, `claim_gift` answers 409
Conflict and leaves the table untouched. -/
theorem claim_of_check_nil (db : List Gift) (gid uid : String) (now : Nat)
    (h : claimCheck db gid = []) :
    claim_gift db gid uid now = (Except.error ClaimError.Conflict, db) := by
  have hcp : claimCheckPhase db gid uid = Except.error ClaimError.Conflict := by
    unfold claimCheckPhase
    rw [h]
  unfold claim_gift
  rw [hcp]

/-! ## Claim theorems -/

/-- Claim C1 (code bug): the claim update in `claim_gift` is keyed only on
`id`, not on `status == in_pool`; the availability check is a separate
earlier query.  Interleaving two claims by distinct users B and C on the
same in-pool gift so that both availability selects run before either
update makes BOTH claims succeed — C silently overwrites B as recipient —
instead of exactly one success and one Conflict. -/
theorem claim_race_both_succeed :
    (claimRaceBothChecksFirst [poolGift] "g1" "B" "C" 1 2).1 =
      Except.ok { poolGift with recipient_id := some "B", status := GiftStatus.claimed, claimed_at := some 1, wrapped := false } ∧
    (claimRaceBothChecksFirst [poolGift] "g1" "B" "C" 1 2).2.1 =
      Except.ok { poolGift with recipient_id := some "C", status := GiftStatus.claimed, claimed_at := some 2, wrapped := false } ∧
    (claimRaceBothChecksFirst [poolGift] "g1" "B" "C" 1 2).2.2 =
      [{ poolGift with recipient_id := some "C", status := GiftStatus.claimed, claimed_at := some 2 }] :=
  ⟨rfl, rfl, rfl⟩

/-- Claim C2, counterexample: with `model_url = "A"` and
`objects = [{url: "B"}, {url: "A"}]`, `wrap_gift` finds "A" already present
and inserts nothing, so `objects[0].url` is "B", not the model url "A" —
the claim that `objects[0].url == model_url` for every valid wrap input is
false. -/
theorem wrap_primary_not_first :
    (wrap_gift [] "g2" reqDup 0).2.model_url = some "A" ∧
    (wrap_gift [] "g2" reqDup 0).2.objects.map PlacedObj.url = [some "B", some "A"] ∧
    (some "B" : Option String) ≠ some "A" := by
  refine ⟨rfl, rfl, ?_⟩
  decide

/-- Claim C2, amended: every wrap result has `status=in_pool`,
`wrapped=true`, `recipient_id` absent; when the effective `model_url` is a
nonempty string `u` that does not occur among the request objects' urls,
the primary entry with default placement `position=(0,0.5,0),
rotation=(0,0,0), scale=(1,1,1)` is inserted as the first element (so
`objects[0].url == model_url`); when `u` already occurs among the objects'
urls, the list is kept unchanged (deduplication skips the insertion rather
than moving the entry to the front), so `objects[0].url` may differ from
`model_url`. -/
theorem wrap_normalized (db : List Gift) (gid : String) (req : WrapRequest)
    (now : Nat) (hlen : req.objects.length ≤ 50) :
    (wrap_gift db gid req now).2.status = GiftStatus.in_pool ∧
    (wrap_gift db gid req now).2.wrapped = true ∧
    (wrap_gift db gid req now).2.recipient_id = none ∧
    (∀ u : String, (wrap_gift db gid req now).2.model_url = some u → u ≠ "" →
      (req.objects.any (hasUrl u) = false →
        (wrap_gift db gid req now).2.objects = defaultPrimary u :: req.objects) ∧
      (req.objects.any (hasUrl u) = true →
        (wrap_gift db gid req now).2.objects = req.objects)) := by
  refine ⟨rfl, rfl, rfl, ?_⟩
  intro u hmu hne
  have hobj : (wrap_gift db gid req now).2.objects =
      wrapObjects (wrapModelUrl req.model_url req.objects) req.objects := rfl
  have hmu2 : wrapModelUrl req.model_url req.objects = some u := hmu
  constructor
  · intro hany
    rw [hobj, hmu2]
    simp [wrapObjects, hne, hany]
  · intro hany
    rw [hobj, hmu2]
    simp [wrapObjects, hne, hany]

/-- Witness for the amended C2 theorem at a concrete input: wrapping with
`model_url = "A"` and no objects yields exactly the default-placed primary
entry as the single object. -/
theorem wrap_normalized_witness :
    (wrap_gift [] "g3" reqW 0).2.objects = [defaultPrimary ("A")] :=
  (((wrap_normalized [] "g3" reqW 0 (by decide)).2.2.2) ("A") rfl (by decide)).1 rfl

/-- Claim C4: any gift returned by `get_gift_from_pool` for user `uid` is
in the pool, not created by `uid`, and unclaimed — for any draw index; and
when the candidate set is empty the draw returns `none` as a normal result
(there is no error outcome in its type). -/
theorem draw_sound (db : List Gift) (uid : String) (choice : Nat) :
    (∀ g : Gift, get_gift_from_pool db uid choice = some g →
      g.status = GiftStatus.in_pool ∧ g.creator_id ≠ uid ∧ g.recipient_id = none) ∧
    (poolCandidates db uid = [] → get_gift_from_pool db uid choice = none) := by
  constructor
  · intro g hg
    unfold get_gift_from_pool at hg
    have hmem : g ∈ poolCandidates db uid := List.get?_mem hg
    unfold poolCandidates at hmem
    exact (poolPred_eq_true uid g).1 (List.mem_filter.1 hmem).2
  · intro h
    unfold get_gift_from_pool
    rw [h]
    rfl

/-- Witness for C4 at a concrete input: drawing from a singleton pool as
user B returns the gift, which is in the pool, created by A (not B), and
unclaimed. -/
theorem draw_sound_witness :
    poolGift.status = GiftStatus.in_pool ∧ poolGift.creator_id ≠ "B" ∧
    poolGift.recipient_id = none :=
  (draw_sound [poolGift] "B" 0).1 poolGift rfl

/-- Claim C10: a wrap request with `model_url` absent and an empty objects
list passes the pydantic field constraints (no ValidationError) and
persists a record whose `model_url` is null and whose objects list is
empty, with the usual fresh-record fields. -/
theorem wrap_without_model (db : List Gift) (gid uid nm : String)
    (pr : Option String) (now : Nat) :
    modelUrlFieldOk none = true ∧
    objectsFieldOk [] = true ∧
    (wrap_gift db gid ⟨uid, nm, pr, none, []⟩ now).2.model_url = none ∧
    (wrap_gift db gid ⟨uid, nm, pr, none, []⟩ now).2.objects = [] ∧
    (wrap_gift db gid ⟨uid, nm, pr, none, []⟩ now).2.status = GiftStatus.in_pool ∧
    (wrap_gift db gid ⟨uid, nm, pr, none, []⟩ now).2.wrapped = true ∧
    (wrap_gift db gid ⟨uid, nm, pr, none, []⟩ now).2.recipient_id = none :=
  ⟨rfl, rfl, rfl, rfl, rfl, rfl, rfl⟩

/-- Claim C5: whenever no row satisfies the availability precondition for
`gid` — the record does not exist, or its status is not `in_pool`, or its
`recipient_id` is already set — `claim_gift` fails with the single
`Conflict` error and the table is unchanged. -/
theorem claim_unavailable_conflict (db : List Gift) (gid uid : String) (now : Nat)
    (h : ∀ g ∈ db, g.id = gid → g.status ≠ GiftStatus.in_pool ∨ g.recipient_id ≠ none) :
    claim_gift db gid uid now = (Except.error ClaimError.Conflict, db) := by
  apply claim_of_check_nil
  unfold claimCheck
  rw [List.filter_eq_nil_iff]
  intro g hg hcon
  obtain ⟨hid, hst, hrec⟩ := (availableFor_eq_true gid g).1 hcon
  rcases h g hg hid with hbad | hbad
  · exact hbad hst
  · exact hbad hrec

/-- Witness for C5 at a concrete input: claiming an already-claimed gift
fails with Conflict and does not mutate the table. -/
theorem claim_unavailable_conflict_witness :
    claim_gift [claimedGift] "g1" "D" 7 = (Except.error ClaimError.Conflict, [claimedGift]) :=
  claim_unavailable_conflict [claimedGift] "g1" "D" 7 (by decide)

/-- Claim C6: for an in-pool, unclaimed gift `g` whose id is unique in the
table, claiming it as its own creator fails with `InvalidOperation` and
leaves the whole table unmodified. -/
theorem claim_self_invalid (db : List Gift) (g : Gift) (now : Nat)
    (hmem : g ∈ db) (hpool : g.status = GiftStatus.in_pool)
    (hrec : g.recipient_id = none)
    (huniq : ∀ g' ∈ db, g'.id = g.id → g' = g) :
    claim_gift db g.id g.creator_id now = (Except.error ClaimError.InvalidOperation, db) := by
  have hgav : availableFor g.id g = true :=
    (availableFor_eq_true g.id g).2 ⟨rfl, hpool, hrec⟩
  have hgmem : g ∈ claimCheck db g.id := by
    unfold claimCheck
    exact List.mem_filter.2 ⟨hmem, hgav⟩
  have hcp : claimCheckPhase db g.id g.creator_id =
      Except.error ClaimError.InvalidOperation := by
    unfold claimCheckPhase
    cases hcc : claimCheck db g.id with
    | nil =>
      rw [hcc] at hgmem
      exact absurd hgmem (List.not_mem_nil g)
    | cons g0 t =>
      have hg0 : g0 ∈ claimCheck db g.id := by
        rw [hcc]
        exact List.mem_cons_self g0 t
      unfold claimCheck at hg0
      have hg0f := List.mem_filter.1 hg0
      have hid : g0.id = g.id := ((availableFor_eq_true g.id g0).1 hg0f.2).1
      have hg0g : g0 = g := huniq g0 hg0f.1 hid
      rw [hg0g]
      simp
  unfold claim_gift
  rw [hcp]

/-- Witness for C6 at a concrete input: creator A claiming their own
in-pool gift fails with InvalidOperation and does not mutate the table. -/
theorem claim_self_invalid_witness :
    claim_gift [poolGift] "g1" "A" 3 = (Except.error ClaimError.InvalidOperation, [poolGift]) :=
  claim_self_invalid [poolGift] poolGift 3 (by decide) rfl rfl (by decide)

/-- Claim C9: the availability check runs before the self-claim guard: for
a gift (unique id) that is no longer in the pool, a claim by its own
creator fails with `Conflict`, not `InvalidOperation`. -/
theorem claim_unavailable_before_self (db : List Gift) (g : Gift) (now : Nat)
    (hmem : g ∈ db) (hnot : g.status ≠ GiftStatus.in_pool)
    (huniq : ∀ g' ∈ db, g'.id = g.id → g' = g) :
    claim_gift db g.id g.creator_id now = (Except.error ClaimError.Conflict, db) := by
  apply claim_of_check_nil
  unfold claimCheck
  rw [List.filter_eq_nil_iff]
  intro x hx hcon
  obtain ⟨hid, hst, hne⟩ := (availableFor_eq_true g.id x).1 hcon
  exact hnot ((huniq x hx hid) ▸ hst)

/-- Witness for C9 at a concrete input: creator A claiming their own
already-claimed gift receives Conflict (the self-claim error is not
reached). -/
theorem claim_unavailable_before_self_witness :
    claim_gift [claimedGift] "g1" "A" 9 = (Except.error ClaimError.Conflict, [claimedGift]) :=
  claim_unavailable_before_self [claimedGift] claimedGift 9 (by decide) (by decide) (by decide)

/-- The claim update maps every row to a row satisfying the recipient/status
invariant, and preserves it on untouched rows. -/
theorem inv_applyClaimUpdate (db : List Gift) (gid uid : String) (now : Nat)
    (h : giftInv db) : giftInv (applyClaimUpdate db gid uid now) := by
  intro g' hg'
  unfold applyClaimUpdate at hg'
  obtain ⟨x, hx, hxe⟩ := List.mem_map.1 hg'
  subst hxe
  by_cases hid : x.id = gid
  · simp [claimStep, hid, claimUpdate]
  · simp only [claimStep, if_neg hid]
    exact h x hx

/-- The open update maps every row to a row satisfying the recipient/status
invariant, and preserves it on untouched rows. -/
theorem inv_openMap (db : List Gift) (gid uid : String) (h : giftInv db) :
    giftInv (db.map (openStep gid uid)) := by
  intro g' hg'
  obtain ⟨x, hx, hxe⟩ := List.mem_map.1 hg'
  subst hxe
  cases hc : openCond gid uid x with
  | false =>
    simpa [openStep, hc] using h x hx
  | true =>
    have hxr : x.recipient_id = some uid := ((openCond_eq_true gid uid x).1 hc).2
    simp [openStep, hc, openUpdate, hxr]

/-- `wrap_gift` preserves the recipient/status invariant. -/
theorem inv_wrap (db : List Gift) (gid : String) (req : WrapRequest) (now : Nat)
    (h : giftInv db) : giftInv (wrap_gift db gid req now).1 := by
  intro g' hg'
  have hg2 : g' ∈ db ++ [(wrap_gift db gid req now).2] := hg'
  rcases List.mem_append.1 hg2 with hmem | hmem
  · exact h g' hmem
  · have he : g' = (wrap_gift db gid req now).2 := List.mem_singleton.1 hmem
    rw [he]
    exact ⟨fun _ => rfl, fun _ => rfl⟩

/-- `claim_gift` preserves the recipient/status invariant (on both its
success and error paths). -/
theorem inv_claim (db : List Gift) (gid uid : String) (now : Nat) (h : giftInv db) :
    giftInv (claim_gift db gid uid now).2 := by
  unfold claim_gift
  cases claimCheckPhase db gid uid with
  | error e => exact h
  | ok g0 =>
    unfold claimUpdatePhase
    cases (applyClaimUpdate db gid uid now).filter (idMatches gid) with
    | nil => exact inv_applyClaimUpdate db gid uid now h
    | cons y t => exact inv_applyClaimUpdate db gid uid now h

/-- `open_gift` preserves the recipient/status invariant (on both its
success and error paths). -/
theorem inv_open (db : List Gift) (gid uid : String) (h : giftInv db) :
    giftInv (open_gift db gid uid).2 := by
  unfold open_gift
  cases (db.map (openStep gid uid)).filter (openCond gid uid) with
  | nil => exact inv_openMap db gid uid h
  | cons y t => exact inv_openMap db gid uid h

/-- Claim C3: the invariant "recipient_id is null iff status == in_pool"
holds for the record created by `wrap_gift` and is preserved by `wrap_gift`,
`claim_gift` and `open_gift` applied to any table satisfying it. -/
theorem lifecycle_preserves_inv (db : List Gift) (gidW gid uid : String)
    (req : WrapRequest) (now : Nat) (h : giftInv db) :
    giftInv (wrap_gift db gidW req now).1 ∧
    giftInv (claim_gift db gid uid now).2 ∧
    giftInv (open_gift db gid uid).2 :=
  ⟨inv_wrap db gidW req now h, inv_claim db gid uid now h, inv_open db gid uid h⟩

/-- Witness for C3 at a concrete input: wrapping, claiming and opening on a
singleton table satisfying the invariant all yield tables satisfying it. -/
theorem lifecycle_preserves_inv_witness :
    giftInv (wrap_gift [poolGift] "g9" reqW 4).1 ∧
    giftInv (claim_gift [poolGift] "g1" "B" 4).2 ∧
    giftInv (open_gift [poolGift] "g1" "B").2 :=
  lifecycle_preserves_inv [poolGift] "g9" "g1" "B" reqW 4 (by unfold giftInv; decide)

/-- The open update does not change the fields its match condition reads. -/
theorem openCond_openUpdate (gid uid : String) (g : Gift) :
    openCond gid uid (openUpdate g) = openCond gid uid g := rfl

/-- The open step leaves its own match condition invariant. -/
theorem openCond_openStep (gid uid : String) (g : Gift) :
    openCond gid uid (openStep gid uid g) = openCond gid uid g := by
  cases h : openCond gid uid g with
  | false => simp [openStep, h]
  | true => simp [openStep, h, openCond_openUpdate]

/-- Setting `wrapped=false, status=opened` twice equals setting it once. -/
theorem openUpdate_idem (g : Gift) : openUpdate (openUpdate g) = openUpdate g := rfl

/-- The per-row open step is idempotent. -/
theorem openStep_idem (gid uid : String) (g : Gift) :
    openStep gid uid (openStep gid uid g) = openStep gid uid g := by
  cases h : openCond gid uid g with
  | false =>
    have h1 : openStep gid uid g = g := by simp [openStep, h]
    rw [h1, h1]
  | true =>
    have h1 : openStep gid uid g = openUpdate g := by simp [openStep, h]
    have h2 : openCond gid uid (openUpdate g) = true := by
      rw [openCond_openUpdate]
      exact h
    rw [h1]
    simp [openStep, h2, openUpdate_idem]

/-- Applying the open update to an already-updated table changes nothing. -/
theorem openMap_idem (db : List Gift) (gid uid : String) :
    (db.map (openStep gid uid)).map (openStep gid uid) = db.map (openStep gid uid) := by
  rw [List.map_map]
  have h : openStep gid uid ∘ openStep gid uid = openStep gid uid :=
    funext (openStep_idem gid uid)
  rw [h]

/-- Every row returned by the open update has `wrapped=false` and
`status=opened`. -/
theorem openResult_props (db : List Gift) (gid uid : String) (y : Gift)
    (hy : y ∈ (db.map (openStep gid uid)).filter (openCond gid uid)) :
    y.wrapped = false ∧ y.status = GiftStatus.opened := by
  obtain ⟨hmem, hcond⟩ := List.mem_filter.1 hy
  obtain ⟨x, hx, hxe⟩ := List.mem_map.1 hmem
  subst hxe
  rw [openCond_openStep] at hcond
  have hstep : openStep gid uid x = openUpdate x := by simp [openStep, hcond]
  rw [hstep]
  exact ⟨rfl, rfl⟩

/-- When the open update matched rows, `open_gift` answers with the first
matched row and the updated table. -/
theorem open_gift_eq (db : List Gift) (gid uid : String) (y : Gift) (t : List Gift)
    (h : (db.map (openStep gid uid)).filter (openCond gid uid) = y :: t) :
    open_gift db gid uid = (Except.ok y, db.map (openStep gid uid)) := by
  unfold open_gift
  rw [h]

/-- Claim C7: for a gift `g` in the table with `recipient_id = r`, opening
as `r` succeeds, the returned record has `wrapped=false` and
`status=opened`, and opening a second time returns the identical result and
final state with no error on either call. -/
theorem open_idempotent (db : List Gift) (g : Gift) (r : String)
    (hmem : g ∈ db) (hrec : g.recipient_id = some r) :
    (∃ g1 : Gift, (open_gift db g.id r).1 = Except.ok g1) ∧
    (∀ g1 : Gift, (open_gift db g.id r).1 = Except.ok g1 →
      g1.wrapped = false ∧ g1.status = GiftStatus.opened) ∧
    open_gift ((open_gift db g.id r).2) g.id r = open_gift db g.id r := by
  have hpg : openCond g.id r g = true :=
    (openCond_eq_true g.id r g).2 ⟨rfl, hrec⟩
  have hmapmem : openStep g.id r g ∈ db.map (openStep g.id r) :=
    List.mem_map_of_mem (openStep g.id r) hmem
  have hcstep : openCond g.id r (openStep g.id r g) = true := by
    rw [openCond_openStep]
    exact hpg
  have hfmem : openStep g.id r g ∈ (db.map (openStep g.id r)).filter (openCond g.id r) :=
    List.mem_filter.2 ⟨hmapmem, hcstep⟩
  cases hf : (db.map (openStep g.id r)).filter (openCond g.id r) with
  | nil =>
    rw [hf] at hfmem
    exact absurd hfmem (List.not_mem_nil _)
  | cons y t =>
    have hopen1 : open_gift db g.id r = (Except.ok y, db.map (openStep g.id r)) :=
      open_gift_eq db g.id r y t hf
    refine ⟨⟨y, by rw [hopen1]⟩, ?_, ?_⟩
    · intro g1 hg1
      rw [hopen1] at hg1
      have hy1 : Except.ok y = Except.ok g1 := hg1
      have hyg : y = g1 := by injection hy1
      have hyf : y ∈ (db.map (openStep g.id r)).filter (openCond g.id r) := by
        rw [hf]
        exact List.mem_cons_self y t
      exact hyg ▸ openResult_props db g.id r y hyf
    · have hf2 : ((db.map (openStep g.id r)).map (openStep g.id r)).filter (openCond g.id r) = y :: t := by
        rw [openMap_idem]
        exact hf
      have hopen2 : open_gift (db.map (openStep g.id r)) g.id r =
          (Except.ok y, (db.map (openStep g.id r)).map (openStep g.id r)) :=
        open_gift_eq (db.map (openStep g.id r)) g.id r y t hf2
      rw [hopen1]
      show open_gift (db.map (openStep g.id r)) g.id r = (Except.ok y, db.map (openStep g.id r))
      rw [hopen2, openMap_idem]

/-- Witness for C7 at a concrete input: recipient B opening their claimed
gift twice — the second call returns exactly the first call's result and
state. -/
theorem open_idempotent_witness :
    open_gift ((open_gift [claimedGift] "g1" "B").2) "g1" "B" = open_gift [claimedGift] "g1" "B" :=
  (open_idempotent [claimedGift] claimedGift "B" (by decide) rfl).2.2

/-- On the success path, `claim_gift` returns the view of the first updated
row with `wrapped` forced to `false`, and the table produced by the claim
update. -/
theorem claim_ok_shape (db : List Gift) (gid uid : String) (now : Nat) (v : Gift)
    (hok : (claim_gift db gid uid now).1 = Except.ok v) :
    v.wrapped = false ∧
    (claim_gift db gid uid now).2 = applyClaimUpdate db gid uid now := by
  unfold claim_gift at hok ⊢
  revert hok
  cases hcp : claimCheckPhase db gid uid with
  | error e =>
    intro hok
    simp at hok
  | ok g0 =>
    intro hok
    have hok2 : (claimUpdatePhase db gid uid now).1 = Except.ok v := hok
    show v.wrapped = false ∧
      (claimUpdatePhase db gid uid now).2 = applyClaimUpdate db gid uid now
    unfold claimUpdatePhase at hok2 ⊢
    revert hok2
    cases hfl : (applyClaimUpdate db gid uid now).filter (idMatches gid) with
    | nil =>
      intro hok2
      simp at hok2
    | cons y t =>
      intro hok2
      have hv : Except.ok { y with wrapped := false } = Except.ok v := hok2
      have hv2 : { y with wrapped := false } = v := by injection hv
      constructor
      · rw [← hv2]
      · rfl

/-- Claim C8: a successful `claim_gift` returns a view with `wrapped`
forced to `false`, while the persisted update is exactly the claim update
keyed on `id`: it changes only `recipient_id`, `status` and `claimed_at`
of matching rows (in particular the persisted `wrapped` is untouched) and
leaves rows with a different id entirely unchanged. -/
theorem claim_view_unwrapped_frame (db : List Gift) (gid uid : String) (now : Nat)
    (v : Gift) (hok : (claim_gift db gid uid now).1 = Except.ok v) :
    v.wrapped = false ∧
    (claim_gift db gid uid now).2 = applyClaimUpdate db gid uid now ∧
    (∀ x : Gift,
      (claimUpdate uid now x).wrapped = x.wrapped ∧
      (claimUpdate uid now x).id = x.id ∧
      (claimUpdate uid now x).creator_id = x.creator_id ∧
      (claimUpdate uid now x).name = x.name ∧
      (claimUpdate uid now x).prompt = x.prompt ∧
      (claimUpdate uid now x).model_url = x.model_url ∧
      (claimUpdate uid now x).objects = x.objects ∧
      (claimUpdate uid now x).created_at = x.created_at) ∧
    (∀ x : Gift, x.id ≠ gid → claimStep gid uid now x = x) := by
  obtain ⟨h1, h2⟩ := claim_ok_shape db gid uid now v hok
  refine ⟨h1, h2, ?_, ?_⟩
  · intro x
    exact ⟨rfl, rfl, rfl, rfl, rfl, rfl, rfl, rfl⟩
  · intro x hx
    simp [claimStep, hx]

/-- Witness for C8 at a concrete input: user B claiming the pool gift gets
the view with `wrapped=false` while the persisted row keeps
`wrapped=true`. -/
theorem claim_view_unwrapped_frame_witness :
    claimedViewB.wrapped = false :=
  (claim_view_unwrapped_frame [poolGift] "g1" "B" 5 claimedViewB rfl).1
